import Mathlib

/-!
Verification of the timeflow span library (Date / Time / DateTime value types
over the chrono calendar primitives).

The development shallowly embeds the canonical modules
(src/date_module/mod.rs, src/time_module/mod.rs, src/datetime_module/mod.rs,
src/timestamp.rs, src/builder.rs, src/error.rs) together with the chrono
primitives they call (checked month/day arithmetic with day clamping,
wrapping time-of-day addition, Unix-second conversion).  Machine integers
are modelled as Int/Nat; the one place where the Rust source performs an
unchecked u32 multiplication (the Year unit converting the delta to months)
is modelled with the release-profile wrapping semantics, made explicit via
a modulus.  A chrono operation that panics on overflow (NaiveDateTime +
TimeDelta) is surfaced as a dedicated outcome constructor.
-/

set_option maxRecDepth 4000

namespace Timeflow

/-! ## chrono primitive model: calendar basics -/

/-- chrono NaiveDate smallest representable year. -/
def MIN_YEAR : Int := -262144

/-- chrono NaiveDate largest representable year. -/
def MAX_YEAR : Int := 262143

def I32_MIN : Int := -2147483648

def I32_MAX : Int := 2147483647

def I64_MIN : Int := -9223372036854775808

def I64_MAX : Int := 9223372036854775807

/-- Proleptic-Gregorian leap year rule (zero tests of the remainder, so the
Euclidean remainder used here agrees with the truncating remainder of Rust). -/
def isLeapYear (y : Int) : Bool := y % 4 == 0 && (y % 100 != 0 || y % 400 == 0)

/-- Number of days of a month in a given year. -/
def daysInMonth (y : Int) (m : Nat) : Nat :=
  match m with
  | 2 => if isLeapYear y then 29 else 28
  | 4 => 30
  | 6 => 30
  | 9 => 30
  | 11 => 30
  | _ => 31

/-- chrono NaiveDate, as its calendar fields. -/
structure NaiveDate where
  year : Int
  month : Nat
  day : Nat
  deriving DecidableEq, Repr

/-- Validity of a NaiveDate: exactly the dates chrono can represent. -/
def NaiveDate.isValid (d : NaiveDate) : Bool :=
  MIN_YEAR ≤ d.year && d.year ≤ MAX_YEAR &&
    1 ≤ d.month && d.month ≤ 12 && 1 ≤ d.day && d.day ≤ daysInMonth d.year d.month

/-- chrono NaiveDate::diff_months: shift by a signed number of months,
clamping the day-of-month to the length of the target month; fails when the
i32 month counter overflows or the target year is unrepresentable. -/
def NaiveDate.diffMonths (d : NaiveDate) (delta : Int) : Option NaiveDate :=
  let months : Int := d.year * 12 + (d.month : Int) - 1 + delta
  if months < I32_MIN ∨ I32_MAX < months then none
  else
    let year := months.fdiv 12
    let month := (months % 12).toNat + 1
    let day := min d.day (daysInMonth year month)
    if year < MIN_YEAR ∨ MAX_YEAR < year then none else some ⟨year, month, day⟩

/-- chrono NaiveDate::checked_add_months (argument is the u32 of Months). -/
def NaiveDate.checked_add_months (d : NaiveDate) (months : Nat) : Option NaiveDate :=
  if months = 0 then some d
  else if (months : Int) ≤ I32_MAX then d.diffMonths (months : Int) else none

/-- chrono NaiveDate::checked_sub_months (argument is the u32 of Months). -/
def NaiveDate.checked_sub_months (d : NaiveDate) (months : Nat) : Option NaiveDate :=
  if months = 0 then some d
  else if (months : Int) ≤ I32_MAX + 1 then d.diffMonths (-(months : Int)) else none

/-- Days since 1970-01-01 of a calendar date (standard civil-calendar day
number, the quantity chrono's day arithmetic and timestamps are based on). -/
def daysFromCivil (d : NaiveDate) : Int :=
  let y : Int := if d.month ≤ 2 then d.year - 1 else d.year
  let era : Int := y.fdiv 400
  let yoe : Nat := (y - era * 400).toNat
  let mp : Nat := (d.month + 9) % 12
  let doy : Nat := (153 * mp + 2) / 5 + d.day - 1
  let doe : Nat := yoe * 365 + yoe / 4 - yoe / 100 + doy
  era * 146097 + (doe : Int) - 719468

/-- Inverse of daysFromCivil (standard civil-from-days algorithm). -/
def civilFromDays (z : Int) : NaiveDate :=
  let z' : Int := z + 719468
  let era : Int := z'.fdiv 146097
  let doe : Nat := (z' - era * 146097).toNat
  let yoe : Nat := (doe - doe / 1460 + doe / 36524 - doe / 146096) / 365
  let y : Int := (yoe : Int) + era * 400
  let doy : Nat := doe - (365 * yoe + yoe / 4 - yoe / 100)
  let mp : Nat := (5 * doy + 2) / 153
  let d : Nat := doy - (153 * mp + 2) / 5 + 1
  let m : Nat := if mp < 10 then mp + 3 else mp - 9
  ⟨if m ≤ 2 then y + 1 else y, m, d⟩

/-- Day number of chrono NaiveDate::MIN (year -262144, Jan 1). -/
def minDays : Int := daysFromCivil ⟨MIN_YEAR, 1, 1⟩

/-- Day number of chrono NaiveDate::MAX (year 262143, Dec 31). -/
def maxDays : Int := daysFromCivil ⟨MAX_YEAR, 12, 31⟩

/-- chrono day-shift on a NaiveDate with range check (add_days core). -/
def NaiveDate.addDaysSigned (d : NaiveDate) (days : Int) : Option NaiveDate :=
  let z := daysFromCivil d + days
  if z < minDays ∨ maxDays < z then none else some (civilFromDays z)

/-- chrono NaiveDate::checked_add_days (argument is the u64 of Days). -/
def NaiveDate.checked_add_days (d : NaiveDate) (days : Nat) : Option NaiveDate :=
  if (days : Int) ≤ I32_MAX then d.addDaysSigned (days : Int) else none

/-- chrono NaiveDate::checked_sub_days (argument is the u64 of Days). -/
def NaiveDate.checked_sub_days (d : NaiveDate) (days : Nat) : Option NaiveDate :=
  if (days : Int) ≤ I32_MAX then d.addDaysSigned (-(days : Int)) else none

/-- chrono NaiveDate::with_year: same month/day in another year, None when
the combination is not a representable date (e.g. Feb 29 of a common year). -/
def NaiveDate.with_year (d : NaiveDate) (y : Int) : Option NaiveDate :=
  if NaiveDate.isValid ⟨y, d.month, d.day⟩ then some ⟨y, d.month, d.day⟩ else none

/-- chrono NaiveDate::with_month. -/
def NaiveDate.with_month (d : NaiveDate) (m : Nat) : Option NaiveDate :=
  if NaiveDate.isValid ⟨d.year, m, d.day⟩ then some ⟨d.year, m, d.day⟩ else none

/-- chrono NaiveDate::with_day. -/
def NaiveDate.with_day (d : NaiveDate) (day : Nat) : Option NaiveDate :=
  if NaiveDate.isValid ⟨d.year, d.month, day⟩ then some ⟨d.year, d.month, day⟩ else none

/-! ## chrono primitive model: time of day and datetime -/

/-- chrono NaiveTime (whole seconds; the library never uses sub-second
precision). -/
structure NaiveTime where
  hour : Nat
  minute : Nat
  second : Nat
  deriving DecidableEq, Repr

def NaiveTime.isValid (t : NaiveTime) : Bool :=
  t.hour ≤ 23 && t.minute ≤ 59 && t.second ≤ 59

def NaiveTime.midnight : NaiveTime := ⟨0, 0, 0⟩

/-- Seconds since midnight. -/
def NaiveTime.secsOfDay (t : NaiveTime) : Nat :=
  t.hour * 3600 + t.minute * 60 + t.second

/-- Time of day from seconds since midnight. -/
def NaiveTime.ofSecs (s : Nat) : NaiveTime := ⟨s / 3600, s / 60 % 60, s % 60⟩

/-- chrono NaiveTime + TimeDelta: wraps around midnight, no day carry. -/
def NaiveTime.addWrap (t : NaiveTime) (secs : Int) : NaiveTime :=
  NaiveTime.ofSecs (((t.secsOfDay : Int) + secs) % 86400).toNat

def NaiveTime.with_hour (t : NaiveTime) (h : Nat) : Option NaiveTime :=
  if h ≤ 23 then some ⟨h, t.minute, t.second⟩ else none

def NaiveTime.with_minute (t : NaiveTime) (m : Nat) : Option NaiveTime :=
  if m ≤ 59 then some ⟨t.hour, m, t.second⟩ else none

def NaiveTime.with_second (t : NaiveTime) (s : Nat) : Option NaiveTime :=
  if s ≤ 59 then some ⟨t.hour, t.minute, s⟩ else none

/-- chrono NaiveDateTime. -/
structure NaiveDateTime where
  date : NaiveDate
  time : NaiveTime
  deriving DecidableEq, Repr

/-- Unix seconds of a NaiveDateTime read as UTC (and_utc().timestamp()). -/
def NaiveDateTime.toSecs (dt : NaiveDateTime) : Int :=
  daysFromCivil dt.date * 86400 + (dt.time.secsOfDay : Int)

/-- Smallest Unix second representable by a NaiveDateTime. -/
def minSecs : Int := minDays * 86400

/-- Largest whole Unix second representable by a NaiveDateTime. -/
def maxSecs : Int := maxDays * 86400 + 86399

/-- NaiveDateTime from Unix seconds (no range check here). -/
def NaiveDateTime.ofSecs (s : Int) : NaiveDateTime :=
  ⟨civilFromDays (s.fdiv 86400), NaiveTime.ofSecs (s % 86400).toNat⟩

/-- chrono NaiveDateTime::checked_add_signed for a whole-second TimeDelta. -/
def NaiveDateTime.checked_add_signed (dt : NaiveDateTime) (secs : Int) :
    Option NaiveDateTime :=
  let s := dt.toSecs + secs
  if s < minSecs ∨ maxSecs < s then none else some (NaiveDateTime.ofSecs s)

/-- chrono DateTime::from_timestamp(secs, 0) restricted to the naive result:
fails outside the representable range. -/
def fromTimestamp (secs : Int) : Option NaiveDateTime :=
  if secs < minSecs ∨ maxSecs < secs then none else some (NaiveDateTime.ofSecs secs)

def NaiveDateTime.checked_add_months (dt : NaiveDateTime) (months : Nat) :
    Option NaiveDateTime :=
  (dt.date.checked_add_months months).map fun d => ⟨d, dt.time⟩

def NaiveDateTime.checked_sub_months (dt : NaiveDateTime) (months : Nat) :
    Option NaiveDateTime :=
  (dt.date.checked_sub_months months).map fun d => ⟨d, dt.time⟩

def NaiveDateTime.checked_add_days (dt : NaiveDateTime) (days : Nat) :
    Option NaiveDateTime :=
  (dt.date.checked_add_days days).map fun d => ⟨d, dt.time⟩

def NaiveDateTime.checked_sub_days (dt : NaiveDateTime) (days : Nat) :
    Option NaiveDateTime :=
  (dt.date.checked_sub_days days).map fun d => ⟨d, dt.time⟩

def NaiveDateTime.with_year (dt : NaiveDateTime) (y : Int) : Option NaiveDateTime :=
  (dt.date.with_year y).map fun d => ⟨d, dt.time⟩

def NaiveDateTime.with_month (dt : NaiveDateTime) (m : Nat) : Option NaiveDateTime :=
  (dt.date.with_month m).map fun d => ⟨d, dt.time⟩

def NaiveDateTime.with_day (dt : NaiveDateTime) (day : Nat) : Option NaiveDateTime :=
  (dt.date.with_day day).map fun d => ⟨d, dt.time⟩

def NaiveDateTime.with_hour (dt : NaiveDateTime) (h : Nat) : Option NaiveDateTime :=
  (dt.time.with_hour h).map fun t => ⟨dt.date, t⟩

def NaiveDateTime.with_minute (dt : NaiveDateTime) (m : Nat) : Option NaiveDateTime :=
  (dt.time.with_minute m).map fun t => ⟨dt.date, t⟩

def NaiveDateTime.with_second (dt : NaiveDateTime) (s : Nat) : Option NaiveDateTime :=
  (dt.time.with_second s).map fun t => ⟨dt.date, t⟩

/-! ## chrono TimeDelta constructors (whole seconds) -/

/-- Whole-second bound of chrono TimeDelta::MAX (i64 milliseconds). -/
def TIMEDELTA_MAX_SECS : Int := 9223372036854775

/-- Whole-second bound of chrono TimeDelta::MIN. -/
def TIMEDELTA_MIN_SECS : Int := -9223372036854775

/-- chrono TimeDelta::new(secs, 0) / TimeDelta::try_seconds. -/
def trySeconds (secs : Int) : Option Int :=
  if secs < TIMEDELTA_MIN_SECS ∨ TIMEDELTA_MAX_SECS < secs then none else some secs

/-- chrono TimeDelta::try_minutes (i64 checked multiply, then try_seconds). -/
def tryMinutes (minutes : Int) : Option Int :=
  if minutes * 60 < I64_MIN ∨ I64_MAX < minutes * 60 then none
  else trySeconds (minutes * 60)

/-- chrono TimeDelta::try_hours (i64 checked multiply, then try_seconds). -/
def tryHours (hours : Int) : Option Int :=
  if hours * 3600 < I64_MIN ∨ I64_MAX < hours * 3600 then none
  else trySeconds (hours * 3600)

/-! ## Error taxonomy (src/error.rs) -/

/-- Tag naming the value kind an error was produced by (DateError /
TimeError / DateTimeError context structs). -/
inductive CtxTag where
  | date
  | time
  | dateTime
  deriving DecidableEq, Repr

/-- SpanError (chrono::ParseError payloads reduced to their message). -/
inductive SpanErr where
  | invalidUtc
  | parseFromStr (msg : String)
  | parseFromTimestamp (msg : String)
  | clearTime (msg : String)
  | invalidUpdate (msg : String)
  | invalidDateTime (y : Int) (mo d h mi s : Nat)
  | invalidDate (y : Int) (mo d : Nat)
  | invalidTime (h mi s : Nat)
  | clearUnit (msg : String)
  | ctx (tag : CtxTag) (inner : SpanErr)
  deriving DecidableEq, Repr

deriving instance DecidableEq for Except

/-- Result::ok_or of the source, specialised to SpanErr. -/
def okOr {α : Type} (o : Option α) (e : SpanErr) : Except SpanErr α :=
  match o with
  | some a => .ok a
  | none => .error e

/-- Observes only the success / failure of a result, not the payload. -/
def exceptIsOk {α : Type} : Except SpanErr α → Bool
  | .ok _ => true
  | .error _ => false

/-! ## Display rendering (chrono strftime subset used by the library) -/

/-- Zero-pad to two digits (chrono %m %d %H %M %S). -/
def pad2 (n : Nat) : String := if n < 10 then "0" ++ toString n else toString n

/-- Zero-pad to four digits. -/
def pad4 (n : Nat) : String :=
  if n < 10 then "000" ++ toString n
  else if n < 100 then "00" ++ toString n
  else if n < 1000 then "0" ++ toString n
  else toString n

/-- chrono %Y: zero-padded to four digits, explicit sign outside 0..=9999. -/
def formatYear (y : Int) : String :=
  if y < 0 then "-" ++ pad4 y.natAbs
  else if 10000 ≤ y then "+" ++ toString y.toNat
  else pad4 y.toNat

/-- strftime interpreter for the format specifiers the library's patterns
use (%Y %m %d %H %M %S %% and literal characters). -/
def strftimeDT (dt : NaiveDateTime) : List Char → String
  | [] => ""
  | '%' :: c :: rest =>
    (match c with
     | 'Y' => formatYear dt.date.year
     | 'm' => pad2 dt.date.month
     | 'd' => pad2 dt.date.day
     | 'H' => pad2 dt.time.hour
     | 'M' => pad2 dt.time.minute
     | 'S' => pad2 dt.time.second
     | '%' => "%"
     | c => String.mk ['%', c]) ++ strftimeDT dt rest
  | c :: rest => String.mk [c] ++ strftimeDT dt rest

/-- Display of a Date (its date rendered with its own pattern; Date
patterns contain no time specifiers). -/
def renderDate (d : NaiveDate) (fmt : String) : String :=
  strftimeDT ⟨d, NaiveTime.midnight⟩ fmt.toList

/-- Display of a Time (its time rendered with its own pattern; Time
patterns contain no date specifiers). -/
def renderTime (t : NaiveTime) (fmt : String) : String :=
  strftimeDT ⟨⟨1970, 1, 1⟩, t⟩ fmt.toList

/-- Display of a DateTime. -/
def renderDT (dt : NaiveDateTime) (fmt : String) : String :=
  strftimeDT dt fmt.toList

/-! ## Format registry (src/builder.rs and the BASE_*_FORMAT statics),
modelled as an explicit state value threaded into the operations that
read it. -/

/-- The three registry slots: BASE_DATE_FORMAT, BASE_TIME_FORMAT and
BASE_DATETIME_FORMAT (the datetime slot may be unset). -/
structure Registry where
  dateFormat : String
  timeFormat : String
  datetimeFormat : Option String
  deriving DecidableEq, Repr

/-- BASE_DATETIME_FORMAT.get(): the explicit slot if set, otherwise the
Date default and the Time default joined by a space, composed at read
time. -/
def Registry.datetimeDefault (r : Registry) : String :=
  match r.datetimeFormat with
  | some f => f
  | none => r.dateFormat ++ " " ++ r.timeFormat

/-- Initial registry contents (the LazyLock initialisers). -/
def initialRegistry : Registry := ⟨"%Y-%m-%d", "%H:%M:%S", none⟩

/-- SpanBuilder::build with the given optional slots: any slot not set
reverts to the hard-coded default. -/
def SpanBuilder.build (dateFormat timeFormat : Option String)
    (datetimeFormat : Option String) : Registry :=
  ⟨dateFormat.getD "%Y-%m-%d", timeFormat.getD "%H:%M:%S", datetimeFormat⟩

/-! ## Unit selectors -/

inductive DateUnit where
  | year
  | month
  | day
  deriving DecidableEq, Repr

inductive TimeUnit where
  | hour
  | minute
  | second
  deriving DecidableEq, Repr

inductive DateTimeUnit where
  | year
  | month
  | day
  | hour
  | minute
  | second
  deriving DecidableEq, Repr

/-- Rust Debug rendering of a DateUnit. -/
def DateUnit.debugStr : DateUnit → String
  | .year => "Year"
  | .month => "Month"
  | .day => "Day"

/-- Rust Debug rendering of a TimeUnit. -/
def TimeUnit.debugStr : TimeUnit → String
  | .hour => "Hour"
  | .minute => "Minute"
  | .second => "Second"

/-- Rust Debug rendering of a DateTimeUnit. -/
def DateTimeUnit.debugStr : DateTimeUnit → String
  | .year => "Year"
  | .month => "Month"
  | .day => "Day"
  | .hour => "Hour"
  | .minute => "Minute"
  | .second => "Second"

/-! ## Value types -/

/-- src/date_module Date: a NaiveDate with its display pattern.  The Rust
derive of PartialEq / Ord is over the full struct, format included, so
structural equality of this model coincides with the derived equality. -/
structure Date where
  date : NaiveDate
  format : String
  deriving DecidableEq, Repr

/-- src/time_module Time. -/
structure Time where
  time : NaiveTime
  format : String
  deriving DecidableEq, Repr

/-- src/datetime_module DateTime. -/
structure DateTime where
  datetime : NaiveDateTime
  format : String
  deriving DecidableEq, Repr

/-- u32 wrapping of the release profile: the source computes the month
magnitude for the Year unit as a plain u32 multiplication, which wraps
modulo 2^32 without overflow checks (and aborts in a debug build). -/
def wrapU32 (n : Nat) : Nat := n % 4294967296

/-! ## Date operations (src/date_module/mod.rs) -/

/-- The inner match of Date::update: the chrono call selected by unit and
sign.  Positive deltas use the add flavour with the delta cast to the
unsigned magnitude, negative deltas the sub flavour with unsigned_abs; the
Year unit multiplies the u32 magnitude by 12 (wrapping, see wrapU32). -/
def Date.updateRaw (self : Date) (unit : DateUnit) (value : Int) : Option NaiveDate :=
  match unit with
  | .year =>
    if 0 < value then self.date.checked_add_months (wrapU32 (value.toNat * 12))
    else self.date.checked_sub_months (wrapU32 (value.natAbs * 12))
  | .month =>
    if 0 < value then self.date.checked_add_months value.toNat
    else self.date.checked_sub_months value.natAbs
  | .day =>
    if 0 < value then self.date.checked_add_days value.toNat
    else self.date.checked_sub_days value.natAbs

/-- Date::update. -/
def Date.update (self : Date) (unit : DateUnit) (value : Int) : Except SpanErr Date :=
  match self.updateRaw unit value with
  | some date => .ok ⟨date, self.format⟩
  | none => .error (.ctx .date (.invalidUpdate
      ("Cannot Add/Remove " ++ toString value ++ " " ++ unit.debugStr ++
        " to/from " ++ renderDate self.date self.format)))

/-- Date::next. -/
def Date.next (self : Date) (unit : DateUnit) : Except SpanErr Date :=
  self.update unit 1

/-- Date::matches. -/
def Date.matches (self : Date) (unit : DateUnit) (value : Int) : Bool :=
  match unit with
  | .year => self.date.year == value
  | .month => (self.date.month : Int) == value
  | .day => (self.date.day : Int) == value

/-- Date::elapsed, as whole seconds of the signed chrono Duration. -/
def Date.elapsed (self lhs : Date) : Int :=
  (daysFromCivil self.date - daysFromCivil lhs.date) * 86400

/-- TryFrom a Date reference into DateTime of Utc: starts from the current
instant and substitutes year, then day, then month (in that order, as the
source does); each substitution can fail, yielding InvalidUtc.  The current
instant is an explicit parameter. -/
def utcFromDate (now : NaiveDateTime) (value : Date) : Except SpanErr NaiveDateTime :=
  match (now.with_year value.date.year).bind
      (fun utc => (utc.with_day value.date.day).bind
        (fun utc => utc.with_month value.date.month)) with
  | some utc => .ok utc
  | none => .error (.ctx .date .invalidUtc)

/-- Date::unit_elapsed.  Year and Month are field arithmetic; Day converts
both dates through the Utc instant (each conversion samples the clock, so
two explicit now values are threaded). -/
def Date.unit_elapsed (self rhs : Date) (unit : DateUnit)
    (now1 now2 : NaiveDateTime) : Except SpanErr Int :=
  match unit with
  | .year => .ok (self.date.year - rhs.date.year)
  | .month => .ok (self.date.year * 12 + (self.date.month : Int) -
      (rhs.date.year * 12 + (rhs.date.month : Int)))
  | .day => do
    let self_utc ← utcFromDate now1 self
    let lhs_utc ← utcFromDate now2 rhs
    pure ((self_utc.toSecs - lhs_utc.toSecs).tdiv 86400)

/-! ## Time operations (src/time_module/mod.rs) -/

/-- Time::update: builds a whole-second TimeDelta for the unit, then applies
chrono's wrapping time-of-day addition. -/
def Time.update (self : Time) (unit : TimeUnit) (value : Int) : Except SpanErr Time :=
  let delta_time : Option Int :=
    match unit with
    | .hour => trySeconds (value * 60 * 60)
    | .minute => trySeconds (value * 60)
    | .second => trySeconds value
  match delta_time with
  | some secs => .ok ⟨self.time.addWrap secs, self.format⟩
  | none => .error (.ctx .time (.invalidUpdate
      ("Cannot Add/Remove " ++ toString value ++ " " ++ unit.debugStr ++
        " to/from " ++ renderTime self.time self.format)))

/-- Time::next. -/
def Time.next (self : Time) (unit : TimeUnit) : Except SpanErr Time :=
  self.update unit 1

/-- Time::elapsed, whole seconds of the signed difference (chrono
signed_duration_since on times of day, not wrapped). -/
def Time.elapsed (self lhs : Time) : Int :=
  (self.time.secsOfDay : Int) - (lhs.time.secsOfDay : Int)

/-- Time::unit_elapsed: the signed difference truncated to the unit (Rust
i64 division truncates toward zero). -/
def Time.unit_elapsed (self rhs : Time) (unit : TimeUnit) : Except SpanErr Int :=
  .ok (match unit with
  | .hour => (self.elapsed rhs).tdiv 3600
  | .minute => (self.elapsed rhs).tdiv 60
  | .second => self.elapsed rhs)

/-- Time::clear_unit. -/
def Time.clear_unit (self : Time) (unit : TimeUnit) : Except SpanErr Time :=
  match (match unit with
    | .hour => okOr (self.time.with_hour 0) (.clearUnit "Error while setting hour to 0")
    | .minute => okOr (self.time.with_minute 0) (.clearUnit "Error while setting minute to 0")
    | .second => okOr (self.time.with_second 0) (.clearUnit "Error while setting second to 0")) with
  | .ok time => .ok ⟨time, self.format⟩
  | .error e => .error (.ctx .time e)

/-! ## DateTime operations (src/datetime_module/mod.rs) -/

/-- Outcome of DateTime::update.  chrono's Add of a TimeDelta to a
NaiveDateTime is a plain + that asserts on overflow, so the Hour / Minute /
Second arms can abort instead of returning an error; that abort is the
panicked constructor. -/
inductive UpdateOutcome (α : Type) where
  | ok (value : α)
  | error (e : SpanErr)
  | panicked
  deriving DecidableEq, Repr

/-- The inner match of DateTime::update.  The outer some layer distinguishes
a normal Option result from the overflow abort of NaiveDateTime + TimeDelta
(outer none). -/
def DateTime.updateRaw (self : DateTime) (unit : DateTimeUnit) (value : Int) :
    Option (Option NaiveDateTime) :=
  match unit with
  | .year =>
    some (if 0 < value then self.datetime.checked_add_months (wrapU32 (value.toNat * 12))
      else self.datetime.checked_sub_months (wrapU32 (value.natAbs * 12)))
  | .month =>
    some (if 0 < value then self.datetime.checked_add_months value.toNat
      else self.datetime.checked_sub_months value.natAbs)
  | .day =>
    some (if 0 < value then self.datetime.checked_add_days value.toNat
      else self.datetime.checked_sub_days value.natAbs)
  | .hour =>
    match tryHours value with
    | none => some none
    | some secs =>
      match self.datetime.checked_add_signed secs with
      | some dt => some (some dt)
      | none => none
  | .minute =>
    match tryMinutes value with
    | none => some none
    | some secs =>
      match self.datetime.checked_add_signed secs with
      | some dt => some (some dt)
      | none => none
  | .second =>
    match trySeconds value with
    | none => some none
    | some secs =>
      match self.datetime.checked_add_signed secs with
      | some dt => some (some dt)
      | none => none

/-- DateTime::update. -/
def DateTime.update (self : DateTime) (unit : DateTimeUnit) (value : Int) :
    UpdateOutcome DateTime :=
  match self.updateRaw unit value with
  | none => .panicked
  | some (some datetime) => .ok ⟨datetime, self.format⟩
  | some none => .error (.ctx .dateTime (.invalidUpdate
      ("Cannot Add/Remove " ++ toString value ++ " " ++ unit.debugStr ++
        " to/from " ++ renderDT self.datetime self.format)))

/-- DateTime::next. -/
def DateTime.next (self : DateTime) (unit : DateTimeUnit) : UpdateOutcome DateTime :=
  self.update unit 1

/-- DateTime::timestamp. -/
def DateTime.timestamp (self : DateTime) : Int := self.datetime.toSecs

/-- DateTime::elapsed, whole seconds of the signed difference. -/
def DateTime.elapsed (self lhs : DateTime) : Int :=
  self.datetime.toSecs - lhs.datetime.toSecs

/-- DateTime::unit_elapsed: field arithmetic for Year / Month, timestamp
difference truncated by the unit for the rest, absolute value applied at
the end. -/
def DateTime.unit_elapsed (self rhs : DateTime) (unit : DateTimeUnit) :
    Except SpanErr Int :=
  let d : Int :=
    match unit with
    | .year => self.datetime.date.year - rhs.datetime.date.year
    | .month => self.datetime.date.year * 12 + (self.datetime.date.month : Int) -
        (rhs.datetime.date.year * 12 + (rhs.datetime.date.month : Int))
    | .day => (((self.timestamp - rhs.timestamp).tdiv 60).tdiv 60).tdiv 24
    | .hour => ((self.timestamp - rhs.timestamp).tdiv 60).tdiv 60
    | .minute => (self.timestamp - rhs.timestamp).tdiv 60
    | .second => self.timestamp - rhs.timestamp
  .ok |d|

/-- DateTime::clear_unit. -/
def DateTime.clear_unit (self : DateTime) (unit : DateTimeUnit) :
    Except SpanErr DateTime :=
  match (match unit with
    | .year => okOr (self.datetime.with_year 1970)
        (.clearUnit "Error while setting year to 1970")
    | .month => okOr (self.datetime.with_month 1)
        (.clearUnit "Error while setting month to 1")
    | .day => okOr (self.datetime.with_day 1)
        (.clearUnit "Error while setting day to 1")
    | .hour => okOr (self.datetime.with_hour 0)
        (.clearUnit "Error while setting hour to 0")
    | .minute => okOr (self.datetime.with_minute 0)
        (.clearUnit "Error while setting minute to 0")
    | .second => okOr (self.datetime.with_second 0)
        (.clearUnit "Error while setting second to 0")) with
  | .ok datetime => .ok ⟨datetime, self.format⟩
  | .error e => .error (.ctx .dateTime e)

/-- DateTime::clear_time: same date, default (midnight) time, and the
format slot re-read from the registry rather than copied from self. -/
def DateTime.clear_time (self : DateTime) (r : Registry) : DateTime :=
  ⟨⟨self.datetime.date, NaiveTime.midnight⟩, r.datetimeDefault⟩

/-! ## Conversion layer -/

/-- From a Date into DateTime: midnight time, registry datetime default as
the pattern (the source Date pattern is not consulted). -/
def DateTime.ofDate (r : Registry) (value : Date) : DateTime :=
  ⟨⟨value.date, NaiveTime.midnight⟩, r.datetimeDefault⟩

/-- From a Time into DateTime: epoch date, registry datetime default. -/
def DateTime.ofTime (r : Registry) (value : Time) : DateTime :=
  ⟨⟨⟨1970, 1, 1⟩, value.time⟩, r.datetimeDefault⟩

/-- From a DateTime into Date: keeps the date part, pattern re-read from
the Date registry slot. -/
def Date.ofDateTime (r : Registry) (value : DateTime) : Date :=
  ⟨value.datetime.date, r.dateFormat⟩

/-- From a DateTime into Time: keeps the time part, pattern re-read from
the Time registry slot. -/
def Time.ofDateTime (r : Registry) (value : DateTime) : Time :=
  ⟨value.datetime.time, r.timeFormat⟩

/-- TryFrom TimestampMilli for DateTime as the source implements it: the
wrapped i64 is handed to chrono from_timestamp as it stands, with no
division. -/
def DateTime.ofTimestampMilli (r : Registry) (timestamp : Int) :
    Except SpanErr DateTime :=
  match fromTimestamp timestamp with
  | none => .error (.parseFromTimestamp "Error while parsing timestamp")
  | some datetime => .ok ⟨datetime, r.datetimeDefault⟩

/-- TryFrom TimestampMicro for DateTime as implemented: i64 truncating
division by 1_000 before from_timestamp. -/
def DateTime.ofTimestampMicro (r : Registry) (timestamp : Int) :
    Except SpanErr DateTime :=
  match fromTimestamp (timestamp.tdiv 1000) with
  | none => .error (.parseFromTimestamp "Error while parsing timestamp")
  | some datetime => .ok ⟨datetime, r.datetimeDefault⟩

/-- TryFrom TimestampNano for DateTime as implemented: i64 truncating
division by 1_000_000 before from_timestamp. -/
def DateTime.ofTimestampNano (r : Registry) (timestamp : Int) :
    Except SpanErr DateTime :=
  match fromTimestamp (timestamp.tdiv 1000000) with
  | none => .error (.parseFromTimestamp "Error while parsing timestamp")
  | some datetime => .ok ⟨datetime, r.datetimeDefault⟩

/-- The milli conversion as the specification words it: integer-divide the
milliseconds by 1000 to whole seconds, then from_timestamp. -/
def specOfTimestampMilli (r : Registry) (timestamp : Int) :
    Except SpanErr DateTime :=
  match fromTimestamp (timestamp.tdiv 1000) with
  | none => .error (.parseFromTimestamp "Error while parsing timestamp")
  | some datetime => .ok ⟨datetime, r.datetimeDefault⟩

/-- The micro conversion as the specification words it: divide by
1_000_000. -/
def specOfTimestampMicro (r : Registry) (timestamp : Int) :
    Except SpanErr DateTime :=
  match fromTimestamp (timestamp.tdiv 1000000) with
  | none => .error (.parseFromTimestamp "Error while parsing timestamp")
  | some datetime => .ok ⟨datetime, r.datetimeDefault⟩

/-- The nano conversion as the specification words it: divide by
1_000_000_000. -/
def specOfTimestampNano (r : Registry) (timestamp : Int) :
    Except SpanErr DateTime :=
  match fromTimestamp (timestamp.tdiv 1000000000) with
  | none => .error (.parseFromTimestamp "Error while parsing timestamp")
  | some datetime => .ok ⟨datetime, r.datetimeDefault⟩

/-! ## Derived comparison order (the Rust derive of Ord is lexicographic in
declaration order: the chrono value first, then the format string) -/

/-- Chronological comparison of NaiveDate (chrono's derived order). -/
def NaiveDate.cmp (a b : NaiveDate) : Ordering :=
  (compare a.year b.year).then ((compare a.month b.month).then (compare a.day b.day))

/-- Comparison of NaiveTime. -/
def NaiveTime.cmp (a b : NaiveTime) : Ordering :=
  (compare a.hour b.hour).then ((compare a.minute b.minute).then (compare a.second b.second))

/-- Comparison of NaiveDateTime. -/
def NaiveDateTime.cmp (a b : NaiveDateTime) : Ordering :=
  (NaiveDate.cmp a.date b.date).then (NaiveTime.cmp a.time b.time)

/-- Date's derived Ord: date field first, then the format string
(byte-lexicographic in Rust; the patterns are ASCII so Lean's string
comparison agrees). -/
def Date.rustCmp (a b : Date) : Ordering :=
  (NaiveDate.cmp a.date b.date).then (compare a.format b.format)

/-- Time's derived Ord. -/
def Time.rustCmp (a b : Time) : Ordering :=
  (NaiveTime.cmp a.time b.time).then (compare a.format b.format)

/-- DateTime's derived Ord. -/
def DateTime.rustCmp (a b : DateTime) : Ordering :=
  (NaiveDateTime.cmp a.datetime b.datetime).then (compare a.format b.format)

/-! ## Statement helpers -/

/-- Total month counter of a date shifted by delta (the quantity chrono's
diff_months floors). -/
def monthsTotal (nd : NaiveDate) (delta : Int) : Int :=
  nd.year * 12 + (nd.month : Int) - 1 + delta

/-- Year of the month-shifted date. -/
def targetYear (nd : NaiveDate) (delta : Int) : Int :=
  (monthsTotal nd delta).fdiv 12

/-- Month of the month-shifted date. -/
def targetMonth (nd : NaiveDate) (delta : Int) : Nat :=
  ((monthsTotal nd delta) % 12).toNat + 1

/-- Expected epoch reset of one field of a NaiveDateTime (year to 1970,
month and day to 1, clock fields to 0), all other fields untouched. -/
def NaiveDateTime.epochReset (dt : NaiveDateTime) : DateTimeUnit → NaiveDateTime
  | .year => ⟨⟨1970, dt.date.month, dt.date.day⟩, dt.time⟩
  | .month => ⟨⟨dt.date.year, 1, dt.date.day⟩, dt.time⟩
  | .day => ⟨⟨dt.date.year, dt.date.month, 1⟩, dt.time⟩
  | .hour => ⟨dt.date, ⟨0, dt.time.minute, dt.time.second⟩⟩
  | .minute => ⟨dt.date, ⟨dt.time.hour, 0, dt.time.second⟩⟩
  | .second => ⟨dt.date, ⟨dt.time.hour, dt.time.minute, 0⟩⟩

/-- Expected epoch reset of one clock field of a NaiveTime. -/
def NaiveTime.epochReset (t : NaiveTime) : TimeUnit → NaiveTime
  | .hour => ⟨0, t.minute, t.second⟩
  | .minute => ⟨t.hour, 0, t.second⟩
  | .second => ⟨t.hour, t.minute, 0⟩

/-- Seconds per step of a Time unit (the factor Time::update scales by). -/
def TimeUnit.seconds : TimeUnit → Int
  | .hour => 3600
  | .minute => 60
  | .second => 1

/-! ## Helper lemmas on the month arithmetic -/

/-- diff_months on a shift whose target year is representable: the floored
year/month pair with the day clamped to the length of the target month. -/
theorem diffMonths_eq (nd : NaiveDate) (delta : Int)
    (hy1 : MIN_YEAR ≤ targetYear nd delta) (hy2 : targetYear nd delta ≤ MAX_YEAR) :
    nd.diffMonths delta =
      some ⟨targetYear nd delta, targetMonth nd delta,
        min nd.day (daysInMonth (targetYear nd delta) (targetMonth nd delta))⟩ := by
  simp only [targetYear, targetMonth, monthsTotal, MIN_YEAR, MAX_YEAR] at hy1 hy2 ⊢
  rw [Int.fdiv_eq_ediv _ (by norm_num : (0:Int) ≤ 12)] at hy1 hy2
  simp only [NaiveDate.diffMonths, I32_MIN, I32_MAX, MIN_YEAR, MAX_YEAR]
  rw [Int.fdiv_eq_ediv _ (by norm_num : (0:Int) ≤ 12)]
  rw [if_neg (by omega), if_neg (by omega)]

/-- The month arm of Date::update (and of the date part of
DateTime::update) for an arbitrary i32 delta with representable target. -/
theorem month_arm_eq (nd : NaiveDate) (delta : Int) (hv : nd.isValid = true)
    (h1 : I32_MIN ≤ delta) (h2 : delta ≤ I32_MAX)
    (hy1 : MIN_YEAR ≤ targetYear nd delta) (hy2 : targetYear nd delta ≤ MAX_YEAR) :
    (if 0 < delta then nd.checked_add_months delta.toNat
     else nd.checked_sub_months delta.natAbs) =
      some ⟨targetYear nd delta, targetMonth nd delta,
        min nd.day (daysInMonth (targetYear nd delta) (targetMonth nd delta))⟩ := by
  simp only [NaiveDate.isValid, Bool.and_eq_true, decide_eq_true_eq] at hv
  obtain ⟨⟨⟨⟨⟨hv1, hv2⟩, hv3⟩, hv4⟩, hv5⟩, hv6⟩ := hv
  rcases lt_trichotomy 0 delta with hpos | hzero | hneg
  · rw [if_pos hpos]
    unfold NaiveDate.checked_add_months
    rw [if_neg (by omega), if_pos (by simp only [I32_MAX] at h2 ⊢; omega)]
    rw [(by omega : ((delta.toNat : Int)) = delta)]
    exact diffMonths_eq nd delta hy1 hy2
  · rw [if_neg (by omega)]
    unfold NaiveDate.checked_sub_months
    rw [if_pos (by omega)]
    subst hzero
    have hY : targetYear nd 0 = nd.year := by
      simp only [targetYear, monthsTotal]
      rw [Int.fdiv_eq_ediv _ (by norm_num : (0:Int) ≤ 12)]
      omega
    have hM : targetMonth nd 0 = nd.month := by
      simp only [targetMonth, monthsTotal]
      omega
    rw [hY, hM, Nat.min_eq_left hv6]
  · rw [if_neg (by omega)]
    unfold NaiveDate.checked_sub_months
    rw [if_neg (by omega), if_pos (by simp only [I32_MIN] at h1 ⊢; simp only [I32_MAX]; omega)]
    rw [(by omega : (-(delta.natAbs : Int)) = delta)]
    exact diffMonths_eq nd delta hy1 hy2

/-- The month arm at the NaiveDateTime level: the time of day rides along. -/
theorem dt_month_arm_eq (dt : NaiveDateTime) (delta : Int)
    (hv : dt.date.isValid = true)
    (h1 : I32_MIN ≤ delta) (h2 : delta ≤ I32_MAX)
    (hy1 : MIN_YEAR ≤ targetYear dt.date delta)
    (hy2 : targetYear dt.date delta ≤ MAX_YEAR) :
    (if 0 < delta then dt.checked_add_months delta.toNat
     else dt.checked_sub_months delta.natAbs) =
      some ⟨⟨targetYear dt.date delta, targetMonth dt.date delta,
        min dt.date.day (daysInMonth (targetYear dt.date delta) (targetMonth dt.date delta))⟩,
        dt.time⟩ := by
  unfold NaiveDateTime.checked_add_months NaiveDateTime.checked_sub_months
  rw [← apply_ite (Option.map fun d => NaiveDateTime.mk d dt.time)]
  rw [month_arm_eq dt.date delta hv h1 h2 hy1 hy2]
  rfl

/-! ## Further helper lemmas -/

theorem daysInMonth_le_31 (y : Int) (m : Nat) : daysInMonth y m ≤ 31 := by
  unfold daysInMonth
  split
  · split <;> omega
  all_goals omega

theorem daysInMonth_ge_28 (y : Int) (m : Nat) : 28 ≤ daysInMonth y m := by
  unfold daysInMonth
  split
  · split <;> omega
  all_goals omega

/-- Outside a Feb 29, a day valid in its month is also valid in that month
of the (non-leap) year 1970. -/
theorem day_le_daysInMonth_1970 {y : Int} {m d : Nat} (h4 : m ≤ 12)
    (h6 : d ≤ daysInMonth y m) (hne : ¬(m = 2 ∧ d = 29)) :
    d ≤ daysInMonth 1970 m := by
  by_cases hm2 : m = 2
  · subst hm2
    have h29 : daysInMonth y 2 ≤ 29 := by
      simp only [daysInMonth]
      split <;> omega
    have hd : d ≠ 29 := fun h => hne ⟨rfl, h⟩
    have hg : daysInMonth 1970 2 = 28 := by decide
    omega
  · have he : daysInMonth y m = daysInMonth 1970 m := by
      have hm : m = 0 ∨ m = 1 ∨ m = 3 ∨ m = 4 ∨ m = 5 ∨ m = 6 ∨ m = 7 ∨ m = 8 ∨
          m = 9 ∨ m = 10 ∨ m = 11 ∨ m = 12 := by omega
      rcases hm with rfl | rfl | rfl | rfl | rfl | rfl | rfl | rfl | rfl | rfl | rfl | rfl <;> rfl
    omega

theorem compare_int_self (x : Int) : compare x x = .eq := by
  simp [compare, compareOfLessAndEq]

theorem compare_nat_self (x : Nat) : compare x x = .eq := by
  simp [compare, compareOfLessAndEq]

theorem naiveDate_cmp_self (d : NaiveDate) : NaiveDate.cmp d d = .eq := by
  unfold NaiveDate.cmp
  rw [compare_int_self, compare_nat_self, compare_nat_self]
  rfl

theorem naiveTime_cmp_self (t : NaiveTime) : NaiveTime.cmp t t = .eq := by
  unfold NaiveTime.cmp
  rw [compare_nat_self, compare_nat_self, compare_nat_self]
  rfl

theorem naiveDateTime_cmp_self (dt : NaiveDateTime) : NaiveDateTime.cmp dt dt = .eq := by
  unfold NaiveDateTime.cmp
  rw [naiveDate_cmp_self, naiveTime_cmp_self]
  rfl

/-- Any successful DateTime::update carries the source format over. -/
theorem dt_update_format_eq (dt res : DateTime) (u : DateTimeUnit) (v : Int)
    (h : dt.update u v = .ok res) : res.format = dt.format := by
  unfold DateTime.update at h
  split at h
  · exact absurd h (by simp)
  · simp only [UpdateOutcome.ok.injEq] at h
    rw [← h]
  · exact absurd h (by simp)

/-- Any successful DateTime::clear_unit carries the source format over. -/
theorem dt_clear_unit_format_eq (dt res : DateTime) (u : DateTimeUnit)
    (h : dt.clear_unit u = .ok res) : res.format = dt.format := by
  unfold DateTime.clear_unit at h
  split at h
  · simp only [Except.ok.injEq] at h
    rw [← h]
  · exact absurd h (by simp)

/-! ## Claim theorems -/

/-- C1 (amended): for every valid Date (or DateTime) and every i32 month
delta whose target month is still within chrono's representable years,
update with the Month unit succeeds, and when the target month has fewer
days than the original day-of-month the day is clamped down to the last
day of the target month; in particular Jan 31 2023 + 1 month =
Feb 28 2023, Jan 31 2024 + 1 month = Feb 29 2024 (leap year) and
Dec 9 2023 + 1 month = Jan 9 2024 (year carry). -/
theorem update_month_clamps :
    (∀ (d : Date) (delta : Int), d.date.isValid = true →
      I32_MIN ≤ delta → delta ≤ I32_MAX →
      MIN_YEAR ≤ targetYear d.date delta → targetYear d.date delta ≤ MAX_YEAR →
      daysInMonth (targetYear d.date delta) (targetMonth d.date delta) < d.date.day →
      d.update .month delta =
        .ok ⟨⟨targetYear d.date delta, targetMonth d.date delta,
          daysInMonth (targetYear d.date delta) (targetMonth d.date delta)⟩, d.format⟩) ∧
    (∀ (dt : DateTime) (delta : Int), dt.datetime.date.isValid = true →
      I32_MIN ≤ delta → delta ≤ I32_MAX →
      MIN_YEAR ≤ targetYear dt.datetime.date delta →
      targetYear dt.datetime.date delta ≤ MAX_YEAR →
      daysInMonth (targetYear dt.datetime.date delta)
          (targetMonth dt.datetime.date delta) < dt.datetime.date.day →
      dt.update .month delta =
        .ok ⟨⟨⟨targetYear dt.datetime.date delta, targetMonth dt.datetime.date delta,
          daysInMonth (targetYear dt.datetime.date delta)
            (targetMonth dt.datetime.date delta)⟩, dt.datetime.time⟩, dt.format⟩) ∧
    Date.update ⟨⟨2023, 1, 31⟩, "%Y-%m-%d"⟩ .month 1 = .ok ⟨⟨2023, 2, 28⟩, "%Y-%m-%d"⟩ ∧
    Date.update ⟨⟨2024, 1, 31⟩, "%Y-%m-%d"⟩ .month 1 = .ok ⟨⟨2024, 2, 29⟩, "%Y-%m-%d"⟩ ∧
    Date.update ⟨⟨2023, 12, 9⟩, "%Y-%m-%d"⟩ .month 1 = .ok ⟨⟨2024, 1, 9⟩, "%Y-%m-%d"⟩ := by
  refine ⟨?_, ?_, by decide, by decide, by decide⟩
  · intro d delta hv h1 h2 hy1 hy2 hlt
    have harm := month_arm_eq d.date delta hv h1 h2 hy1 hy2
    rw [Nat.min_eq_right hlt.le] at harm
    simp only [Date.update, Date.updateRaw]
    rw [harm]
  · intro dt delta hv h1 h2 hy1 hy2 hlt
    have harm := dt_month_arm_eq dt.datetime delta hv h1 h2 hy1 hy2
    rw [Nat.min_eq_right hlt.le] at harm
    simp only [DateTime.update, DateTime.updateRaw]
    rw [harm]

/-- C1 counterexample: Dec 31 of chrono's maximal year 262143 is a valid
Date and the month two steps ahead (Feb of year 262144) has only 29 days,
fewer than the original day 31, yet update fails because the target year
is unrepresentable — refuting the claim's unconditional success. -/
theorem update_month_clamps_cex :
    NaiveDate.isValid ⟨262143, 12, 31⟩ = true ∧
    daysInMonth (targetYear ⟨262143, 12, 31⟩ 2) (targetMonth ⟨262143, 12, 31⟩ 2) < 31 ∧
    exceptIsOk (Date.update ⟨⟨262143, 12, 31⟩, "%Y-%m-%d"⟩ .month 2) = false := by
  refine ⟨by decide, by decide, by decide⟩

/-- C1 witness: the general Date clause applied to Jan 31 2024 plus one
month, all hypotheses discharged by evaluation. -/
theorem update_month_clamps_witness :
    Date.update ⟨⟨2024, 1, 31⟩, "%Y-%m-%d"⟩ .month 1 = .ok ⟨⟨2024, 2, 29⟩, "%Y-%m-%d"⟩ :=
  (update_month_clamps.1 ⟨⟨2024, 1, 31⟩, "%Y-%m-%d"⟩ 1 (by decide) (by decide) (by decide)
    (by decide) (by decide) (by decide)).trans (by decide)

/-- C2 evaluated on the code: the Day unit does report InvalidUpdate on an
i32::MAX delta (the repository's own test), but the Second unit applied to
the largest representable DateTime hits chrono's asserting plus operator
and aborts instead of returning InvalidUpdate, so the never-panics policy
does not hold for every unit. -/
theorem update_overflow_policy_eval :
    Date.update ⟨⟨2023, 10, 9⟩, "%Y-%m-%d"⟩ .day 2147483647 =
      .error (.ctx .date (.invalidUpdate
        "Cannot Add/Remove 2147483647 Day to/from 2023-10-09")) ∧
    DateTime.update ⟨⟨⟨2023, 10, 9⟩, ⟨0, 0, 0⟩⟩, "%Y-%m-%d %H:%M:%S"⟩ .day 2147483647 =
      .error (.ctx .dateTime (.invalidUpdate
        "Cannot Add/Remove 2147483647 Day to/from 2023-10-09 00:00:00")) ∧
    NaiveDate.isValid ⟨262143, 12, 31⟩ = true ∧
    NaiveTime.isValid ⟨23, 59, 59⟩ = true ∧
    DateTime.update ⟨⟨⟨262143, 12, 31⟩, ⟨23, 59, 59⟩⟩, "%Y-%m-%d %H:%M:%S"⟩ .second
      2147483647 = .panicked := by
  refine ⟨by decide, by decide, by decide, by decide, by decide⟩

/-- C3 evaluated on the code: the u32 product unsigned_abs(i32::MIN) * 12
wraps to exactly 0, so an update by i32::MIN years subtracts zero months
and returns the value unchanged — neither a correct result nor an
InvalidUpdate error (with overflow checks enabled the multiplication
aborts instead). -/
theorem year_magnitude_wrap_eval :
    wrapU32 ((2147483648 : Nat) * 12) = 0 ∧
    Int.natAbs (-2147483648) = 2147483648 ∧
    Date.update ⟨⟨2023, 10, 9⟩, "%Y-%m-%d"⟩ .year (-2147483648) =
      .ok ⟨⟨2023, 10, 9⟩, "%Y-%m-%d"⟩ ∧
    DateTime.update ⟨⟨⟨2023, 10, 9⟩, ⟨0, 0, 0⟩⟩, "%Y-%m-%d %H:%M:%S"⟩ .year (-2147483648) =
      .ok ⟨⟨⟨2023, 10, 9⟩, ⟨0, 0, 0⟩⟩, "%Y-%m-%d %H:%M:%S"⟩ := by
  refine ⟨by decide, by decide, by decide, by decide⟩

/-- C4 evaluated on the code: the milli conversion performs no division
(1000 ms after the epoch comes out as 00:16:40 instead of the 00:00:01 the
spec's divide-by-1000 yields), the micro conversion divides by 1_000 and
the nano conversion by 1_000_000, each a factor 1000 short of the divisor
the claim states; only the out-of-range ParseFromTimestamp error of the
claim matches the code. -/
theorem timestamp_divisor_eval :
    DateTime.ofTimestampMilli initialRegistry 1000 =
      .ok ⟨⟨⟨1970, 1, 1⟩, ⟨0, 16, 40⟩⟩, "%Y-%m-%d %H:%M:%S"⟩ ∧
    specOfTimestampMilli initialRegistry 1000 =
      .ok ⟨⟨⟨1970, 1, 1⟩, ⟨0, 0, 1⟩⟩, "%Y-%m-%d %H:%M:%S"⟩ ∧
    DateTime.ofTimestampMicro initialRegistry 1000000 =
      .ok ⟨⟨⟨1970, 1, 1⟩, ⟨0, 16, 40⟩⟩, "%Y-%m-%d %H:%M:%S"⟩ ∧
    specOfTimestampMicro initialRegistry 1000000 =
      .ok ⟨⟨⟨1970, 1, 1⟩, ⟨0, 0, 1⟩⟩, "%Y-%m-%d %H:%M:%S"⟩ ∧
    DateTime.ofTimestampNano initialRegistry 1000000000 =
      .ok ⟨⟨⟨1970, 1, 1⟩, ⟨0, 16, 40⟩⟩, "%Y-%m-%d %H:%M:%S"⟩ ∧
    specOfTimestampNano initialRegistry 1000000000 =
      .ok ⟨⟨⟨1970, 1, 1⟩, ⟨0, 0, 1⟩⟩, "%Y-%m-%d %H:%M:%S"⟩ ∧
    DateTime.ofTimestampMilli initialRegistry (maxSecs + 1) =
      .error (.parseFromTimestamp "Error while parsing timestamp") := by
  refine ⟨by decide, by decide, by decide, by decide, by decide, by decide, by decide⟩

/-- C5 (amended): DateTime::unit_elapsed takes the absolute value, so it is
non-negative and independent of the argument order; Date::unit_elapsed on
the Year and Month units and Time::unit_elapsed on every unit return the
signed difference of the first argument minus the second, which changes
sign when the arguments are swapped. -/
theorem unit_elapsed_signedness :
    (∀ (a b : DateTime) (u : DateTimeUnit),
      ∃ n : Int, a.unit_elapsed b u = .ok n ∧ 0 ≤ n ∧ b.unit_elapsed a u = .ok n) ∧
    (∀ (a b : Date) (now1 now2 : NaiveDateTime) (n : Int),
      a.unit_elapsed b .year now1 now2 = .ok n →
      b.unit_elapsed a .year now2 now1 = .ok (-n)) ∧
    (∀ (a b : Date) (now1 now2 : NaiveDateTime) (n : Int),
      a.unit_elapsed b .month now1 now2 = .ok n →
      b.unit_elapsed a .month now2 now1 = .ok (-n)) ∧
    (∀ (a b : Time) (u : TimeUnit) (n : Int),
      a.unit_elapsed b u = .ok n → b.unit_elapsed a u = .ok (-n)) := by
  refine ⟨?_, ?_, ?_, ?_⟩
  · intro a b u
    cases u
    case year =>
      refine ⟨_, rfl, abs_nonneg _, ?_⟩
      simp only [DateTime.unit_elapsed]
      rw [abs_sub_comm]
    case month =>
      refine ⟨_, rfl, abs_nonneg _, ?_⟩
      simp only [DateTime.unit_elapsed]
      rw [abs_sub_comm]
    case day =>
      refine ⟨_, rfl, abs_nonneg _, ?_⟩
      simp only [DateTime.unit_elapsed, DateTime.timestamp]
      rw [show b.datetime.toSecs - a.datetime.toSecs
          = -(a.datetime.toSecs - b.datetime.toSecs) by ring]
      rw [Int.neg_tdiv, Int.neg_tdiv, Int.neg_tdiv, abs_neg]
    case hour =>
      refine ⟨_, rfl, abs_nonneg _, ?_⟩
      simp only [DateTime.unit_elapsed, DateTime.timestamp]
      rw [show b.datetime.toSecs - a.datetime.toSecs
          = -(a.datetime.toSecs - b.datetime.toSecs) by ring]
      rw [Int.neg_tdiv, Int.neg_tdiv, abs_neg]
    case minute =>
      refine ⟨_, rfl, abs_nonneg _, ?_⟩
      simp only [DateTime.unit_elapsed, DateTime.timestamp]
      rw [show b.datetime.toSecs - a.datetime.toSecs
          = -(a.datetime.toSecs - b.datetime.toSecs) by ring]
      rw [Int.neg_tdiv, abs_neg]
    case second =>
      refine ⟨_, rfl, abs_nonneg _, ?_⟩
      simp only [DateTime.unit_elapsed, DateTime.timestamp]
      rw [abs_sub_comm]
  · intro a b now1 now2 n h
    simp only [Date.unit_elapsed, Except.ok.injEq] at h ⊢
    omega
  · intro a b now1 now2 n h
    simp only [Date.unit_elapsed, Except.ok.injEq] at h ⊢
    omega
  · intro a b u n h
    cases u
    case hour =>
      simp only [Time.unit_elapsed, Time.elapsed, Except.ok.injEq] at h ⊢
      rw [show ((b.time.secsOfDay : Int) - (a.time.secsOfDay : Int))
          = -((a.time.secsOfDay : Int) - (b.time.secsOfDay : Int)) by ring]
      rw [Int.neg_tdiv]
      omega
    case minute =>
      simp only [Time.unit_elapsed, Time.elapsed, Except.ok.injEq] at h ⊢
      rw [show ((b.time.secsOfDay : Int) - (a.time.secsOfDay : Int))
          = -((a.time.secsOfDay : Int) - (b.time.secsOfDay : Int)) by ring]
      rw [Int.neg_tdiv]
      omega
    case second =>
      simp only [Time.unit_elapsed, Time.elapsed, Except.ok.injEq] at h ⊢
      omega

/-- C5 counterexample: Date::unit_elapsed is signed and order dependent
(here it returns -3, which is negative and differs from the swapped call's
3), refuting the claimed absolute-value symmetry for the Date kind. -/
theorem unit_elapsed_signedness_cex :
    Date.unit_elapsed ⟨⟨2020, 1, 1⟩, "%Y-%m-%d"⟩ ⟨⟨2023, 1, 1⟩, "%Y-%m-%d"⟩ .year
      ⟨⟨2024, 1, 1⟩, ⟨0, 0, 0⟩⟩ ⟨⟨2024, 1, 1⟩, ⟨0, 0, 0⟩⟩ = .ok (-3) ∧
    Date.unit_elapsed ⟨⟨2023, 1, 1⟩, "%Y-%m-%d"⟩ ⟨⟨2020, 1, 1⟩, "%Y-%m-%d"⟩ .year
      ⟨⟨2024, 1, 1⟩, ⟨0, 0, 0⟩⟩ ⟨⟨2024, 1, 1⟩, ⟨0, 0, 0⟩⟩ = .ok 3 := by
  exact ⟨by decide, by decide⟩

/-- C5 witness: the Time clause applied to the 01:34:45 / midnight pair of
the repository's own test. -/
theorem unit_elapsed_signedness_witness :
    Time.unit_elapsed ⟨⟨0, 0, 0⟩, "%H:%M:%S"⟩ ⟨⟨1, 34, 45⟩, "%H:%M:%S"⟩ .hour = .ok (-1) :=
  (unit_elapsed_signedness.2.2.2 ⟨⟨1, 34, 45⟩, "%H:%M:%S"⟩ ⟨⟨0, 0, 0⟩, "%H:%M:%S"⟩ .hour 1
    (by decide)).trans (by decide)

/-- C6 (amended): clear_unit resets the selected field to its epoch
default (year 1970, month 1, day 1, clock fields 0) leaving every other
field unchanged, for every Time value and unit, and for every valid
DateTime value and unit except clearing Year on a Feb 29, where the
non-leap epoch year cannot represent the date and the call fails with a
ClearUnit error. -/
theorem clear_unit_epoch_reset :
    (∀ (t : Time) (u : TimeUnit),
      t.clear_unit u = .ok ⟨t.time.epochReset u, t.format⟩) ∧
    (∀ (dt : DateTime) (u : DateTimeUnit),
      dt.datetime.date.isValid = true →
      (¬(u = .year ∧ dt.datetime.date.month = 2 ∧ dt.datetime.date.day = 29) →
        dt.clear_unit u = .ok ⟨dt.datetime.epochReset u, dt.format⟩) ∧
      ((u = .year ∧ dt.datetime.date.month = 2 ∧ dt.datetime.date.day = 29) →
        dt.clear_unit u =
          .error (.ctx .dateTime (.clearUnit "Error while setting year to 1970")))) := by
  constructor
  · intro t u
    cases u <;>
      simp [Time.clear_unit, NaiveTime.with_hour, NaiveTime.with_minute,
        NaiveTime.with_second, okOr, NaiveTime.epochReset]
  · intro dt u hv
    simp only [NaiveDate.isValid, Bool.and_eq_true, decide_eq_true_eq] at hv
    obtain ⟨⟨⟨⟨⟨hv1, hv2⟩, hv3⟩, hv4⟩, hv5⟩, hv6⟩ := hv
    constructor
    · intro hne
      cases u
      case year =>
        have hval : NaiveDate.isValid
            ⟨1970, dt.datetime.date.month, dt.datetime.date.day⟩ = true := by
          have hle : dt.datetime.date.day ≤ daysInMonth 1970 dt.datetime.date.month :=
            day_le_daysInMonth_1970 hv4 hv6 (fun hmd => hne ⟨rfl, hmd.1, hmd.2⟩)
          simp only [NaiveDate.isValid, Bool.and_eq_true, decide_eq_true_eq]
          exact ⟨⟨⟨⟨⟨by decide, by decide⟩, hv3⟩, hv4⟩, hv5⟩, hle⟩
        simp only [DateTime.clear_unit, NaiveDateTime.with_year, NaiveDate.with_year, okOr]
        rw [if_pos hval]
        rfl
      case month =>
        have hval : NaiveDate.isValid
            ⟨dt.datetime.date.year, 1, dt.datetime.date.day⟩ = true := by
          simp only [NaiveDate.isValid, Bool.and_eq_true, decide_eq_true_eq]
          exact ⟨⟨⟨⟨⟨hv1, hv2⟩, by decide⟩, by decide⟩, hv5⟩,
            le_trans hv6 (daysInMonth_le_31 _ _)⟩
        simp only [DateTime.clear_unit, NaiveDateTime.with_month, NaiveDate.with_month, okOr]
        rw [if_pos hval]
        rfl
      case day =>
        have hval : NaiveDate.isValid
            ⟨dt.datetime.date.year, dt.datetime.date.month, 1⟩ = true := by
          simp only [NaiveDate.isValid, Bool.and_eq_true, decide_eq_true_eq]
          exact ⟨⟨⟨⟨⟨hv1, hv2⟩, hv3⟩, hv4⟩, by decide⟩,
            le_trans (by decide) (daysInMonth_ge_28 _ _)⟩
        simp only [DateTime.clear_unit, NaiveDateTime.with_day, NaiveDate.with_day, okOr]
        rw [if_pos hval]
        rfl
      case hour =>
        simp [DateTime.clear_unit, NaiveDateTime.with_hour, NaiveTime.with_hour, okOr,
          NaiveDateTime.epochReset]
      case minute =>
        simp [DateTime.clear_unit, NaiveDateTime.with_minute, NaiveTime.with_minute, okOr,
          NaiveDateTime.epochReset]
      case second =>
        simp [DateTime.clear_unit, NaiveDateTime.with_second, NaiveTime.with_second, okOr,
          NaiveDateTime.epochReset]
    · rintro ⟨rfl, hm, hd⟩
      simp only [DateTime.clear_unit, NaiveDateTime.with_year, NaiveDate.with_year, hm, hd,
        okOr]
      rw [if_neg (by decide)]
      rfl

/-- C6 counterexample: Feb 29 2024 12:00:00 is a valid DateTime but
clearing its Year unit fails with a ClearUnit error (1970-02-29 does not
exist), refuting the claimed unconditional success. -/
theorem clear_unit_epoch_reset_cex :
    NaiveDate.isValid ⟨2024, 2, 29⟩ = true ∧
    DateTime.clear_unit ⟨⟨⟨2024, 2, 29⟩, ⟨12, 0, 0⟩⟩, "%Y-%m-%d %H:%M:%S"⟩ .year =
      .error (.ctx .dateTime (.clearUnit "Error while setting year to 1970")) := by
  exact ⟨by decide, by decide⟩

/-- C6 witness: the DateTime clause applied to the 2023-05-17 09:05:12
example of the source documentation, clearing the Year unit. -/
theorem clear_unit_epoch_reset_witness :
    DateTime.clear_unit ⟨⟨⟨2023, 5, 17⟩, ⟨9, 5, 12⟩⟩, "%Y-%m-%d %H:%M:%S"⟩ .year =
      .ok ⟨⟨⟨1970, 5, 17⟩, ⟨9, 5, 12⟩⟩, "%Y-%m-%d %H:%M:%S"⟩ :=
  (((clear_unit_epoch_reset.2 ⟨⟨⟨2023, 5, 17⟩, ⟨9, 5, 12⟩⟩, "%Y-%m-%d %H:%M:%S"⟩ .year
    (by decide)).1 (by decide)).trans (by decide))

/-- C7: Time arithmetic wraps modulo 24 hours with no day carry: for every
i32 delta the TimeDelta construction stays in range, update succeeds, and
the result is the clock time advanced by the scaled delta modulo 86400
seconds; in particular midnight minus one hour is 23:00:00. -/
theorem time_update_wraps :
    (∀ (t : Time) (u : TimeUnit) (v : Int), I32_MIN ≤ v → v ≤ I32_MAX →
      t.update u v = .ok ⟨t.time.addWrap (v * u.seconds), t.format⟩) ∧
    Time.update ⟨⟨0, 0, 0⟩, "%H:%M:%S"⟩ .hour (-1) = .ok ⟨⟨23, 0, 0⟩, "%H:%M:%S"⟩ := by
  constructor
  · intro t u v h1 h2
    simp only [I32_MIN] at h1
    simp only [I32_MAX] at h2
    cases u
    case hour =>
      simp only [Time.update, trySeconds, TimeUnit.seconds]
      rw [if_neg (by simp only [TIMEDELTA_MIN_SECS, TIMEDELTA_MAX_SECS]; omega)]
      rw [show v * 60 * 60 = v * 3600 by ring]
    case minute =>
      simp only [Time.update, trySeconds, TimeUnit.seconds]
      rw [if_neg (by simp only [TIMEDELTA_MIN_SECS, TIMEDELTA_MAX_SECS]; omega)]
    case second =>
      simp only [Time.update, trySeconds, TimeUnit.seconds]
      rw [if_neg (by simp only [TIMEDELTA_MIN_SECS, TIMEDELTA_MAX_SECS]; omega)]
      rw [mul_one]
  · decide

/-- C7 witness: the general clause applied to 23:59:34 plus one hour,
wrapping past midnight into 00:59:34. -/
theorem time_update_wraps_witness :
    Time.update ⟨⟨23, 59, 34⟩, "%H:%M:%S"⟩ .hour 1 = .ok ⟨⟨0, 59, 34⟩, "%H:%M:%S"⟩ :=
  (time_update_wraps.1 ⟨⟨23, 59, 34⟩, "%H:%M:%S"⟩ .hour 1 (by decide) (by decide)).trans
    (by decide)

/-- C8: widening a Date to a DateTime keeps the calendar date, sets the
time to midnight and takes the current registry DateTime default as the
pattern (not the source Date's own pattern); narrowing the result back to
a Date restores the same calendar date. -/
theorem date_datetime_roundtrip :
    ∀ (r r2 : Registry) (d : Date),
      (DateTime.ofDate r d).datetime = ⟨d.date, NaiveTime.midnight⟩ ∧
      (DateTime.ofDate r d).format = r.datetimeDefault ∧
      (Date.ofDateTime r2 (DateTime.ofDate r d)).date = d.date := by
  intro r r2 d
  exact ⟨rfl, rfl, rfl⟩

/-- C9 (amended): the derived equality and ordering of the value types
include the format string: two values are equal exactly when the wrapped
calendrical value and the format string both agree, and when the
calendrical values coincide the derived order falls back to comparing the
format strings. -/
theorem derived_eq_includes_format :
    (∀ a b : Date, a = b ↔ a.date = b.date ∧ a.format = b.format) ∧
    (∀ a b : Time, a = b ↔ a.time = b.time ∧ a.format = b.format) ∧
    (∀ a b : DateTime, a = b ↔ a.datetime = b.datetime ∧ a.format = b.format) ∧
    (∀ a b : Date, a.date = b.date → a.rustCmp b = compare a.format b.format) ∧
    (∀ a b : Time, a.time = b.time → a.rustCmp b = compare a.format b.format) ∧
    (∀ a b : DateTime, a.datetime = b.datetime →
      a.rustCmp b = compare a.format b.format) := by
  refine ⟨?_, ?_, ?_, ?_, ?_, ?_⟩
  · intro a b
    cases a
    cases b
    simp
  · intro a b
    cases a
    cases b
    simp
  · intro a b
    cases a
    cases b
    simp
  · intro a b h
    unfold Date.rustCmp
    rw [h, naiveDate_cmp_self]
    rfl
  · intro a b h
    unfold Time.rustCmp
    rw [h, naiveTime_cmp_self]
    rfl
  · intro a b h
    unfold DateTime.rustCmp
    rw [h, naiveDateTime_cmp_self]
    rfl

/-- C9 counterexample: two Dates wrapping the same calendar date but
carrying different format strings are unequal under the derived equality
and do not compare as equal under the derived order. -/
theorem derived_eq_includes_format_cex :
    (⟨⟨2023, 10, 9⟩, "%Y-%m-%d"⟩ : Date).date = (⟨⟨2023, 10, 9⟩, "%d/%m/%Y"⟩ : Date).date ∧
    (⟨⟨2023, 10, 9⟩, "%Y-%m-%d"⟩ : Date) ≠ ⟨⟨2023, 10, 9⟩, "%d/%m/%Y"⟩ ∧
    Date.rustCmp ⟨⟨2023, 10, 9⟩, "%Y-%m-%d"⟩ ⟨⟨2023, 10, 9⟩, "%d/%m/%Y"⟩ ≠ .eq := by
  refine ⟨rfl, by decide, by decide⟩

/-- C9 witness: the Date ordering clause applied to a same-date pair. -/
theorem derived_eq_includes_format_witness :
    Date.rustCmp ⟨⟨2023, 10, 9⟩, "%Y-%m-%d"⟩ ⟨⟨2023, 10, 9⟩, "%d/%m/%Y"⟩ =
      compare "%Y-%m-%d" "%d/%m/%Y" :=
  derived_eq_includes_format.2.2.2.1 ⟨⟨2023, 10, 9⟩, "%Y-%m-%d"⟩
    ⟨⟨2023, 10, 9⟩, "%d/%m/%Y"⟩ rfl

/-- C10: clear_time keeps the date component, resets the time to midnight
and replaces the stored format with the current registry DateTime default,
whereas update, next and clear_unit all keep the source value's format on
success; on the initial registry a value with a custom pattern comes out
of clear_time with the default pattern. -/
theorem clear_time_takes_registry_format :
    (∀ (r : Registry) (dt : DateTime),
      (dt.clear_time r).datetime.date = dt.datetime.date ∧
      (dt.clear_time r).datetime.time = NaiveTime.midnight ∧
      (dt.clear_time r).format = r.datetimeDefault) ∧
    (∀ (dt res : DateTime) (u : DateTimeUnit) (v : Int),
      dt.update u v = .ok res → res.format = dt.format) ∧
    (∀ (dt res : DateTime) (u : DateTimeUnit),
      dt.next u = .ok res → res.format = dt.format) ∧
    (∀ (dt res : DateTime) (u : DateTimeUnit),
      dt.clear_unit u = .ok res → res.format = dt.format) ∧
    (DateTime.clear_time ⟨⟨⟨2023, 10, 9⟩, ⟨1, 1, 1⟩⟩, "%d/%m/%YT%H_%M_%S"⟩
      initialRegistry).format = "%Y-%m-%d %H:%M:%S" := by
  refine ⟨fun r dt => ⟨rfl, rfl, rfl⟩, dt_update_format_eq,
    fun dt res u h => dt_update_format_eq dt res u 1 h, dt_clear_unit_format_eq, by decide⟩

/-- C10 witness: a minute update on a value with a custom pattern keeps
that pattern. -/
theorem clear_time_takes_registry_format_witness :
    (⟨⟨⟨2023, 10, 9⟩, ⟨1, 6, 1⟩⟩, "%d/%m/%YT%H_%M_%S"⟩ : DateTime).format =
      "%d/%m/%YT%H_%M_%S" :=
  clear_time_takes_registry_format.2.1 ⟨⟨⟨2023, 10, 9⟩, ⟨1, 1, 1⟩⟩, "%d/%m/%YT%H_%M_%S"⟩
    ⟨⟨⟨2023, 10, 9⟩, ⟨1, 6, 1⟩⟩, "%d/%m/%YT%H_%M_%S"⟩ .minute 5 (by decide)

end Timeflow
